import Mathlib

/-!
Shallow embedding of `src/utils/draftStorage.js` (sgt-frontend), the
client-side draft-selection cache, together with proofs about its
save/load/clear/exists operations.

Modelling decisions, each traced to the source:
* `localStorage` holds at most the single key `sgt_draft_picks`, so the
  storage state is `Option StoredValue`; `none` means the key is absent.
* A stored string is either the JSON serialization of a draft record
  (`StoredValue.record`) or unparseable text (`StoredValue.corrupted`);
  `JSON.parse` on the latter throws, modelled by `parseStored` returning
  `Except.error`.  `JSON.stringify`/`JSON.parse` round-trip records
  exactly for the integer/string/null data used here.
* `Date.now()` results are threaded as explicit `Int` arguments.
  `saveDraftToStorage` calls `Date.now()` TWICE (source lines 14 and 15:
  `savedAt: Date.now(), expiresAt: Date.now() + EXPIRATION_MS`), so the
  embedding takes two clock readings `t1` (for `savedAt`) and `t2`
  (for `expiresAt`); in a real run `t1 ≤ t2`, and the two may differ
  when the millisecond clock ticks between the two expressions.
* The JS `tournamentId` argument of `save` is a number or null/undefined;
  `if (!tournamentId) return;` tests JS falsiness, so it is embedded as
  `Option Int` (`none` for null/undefined) with `0` also falsy.
* `localStorage.setItem` may throw (quota); the source catches and logs.
  The embedding takes a `writeOk : Bool` flag: `false` means the write
  threw and storage is unchanged.  `removeItem` is modelled as always
  succeeding (its try/catch only matters for a failing storage backend,
  which no claim exercises).
-/

structure Golfer where
  id : Int
  full_name : String
deriving Repr, DecidableEq

structure DraftData where
  tournamentId : Int
  savedAt : Int
  expiresAt : Int
  selections : List (Option Golfer)
deriving Repr, DecidableEq

inductive StoredValue where
  | record (d : DraftData)
  | corrupted (raw : String)
deriving Repr, DecidableEq

/-- Storage state for the single key `sgt_draft_picks`; `none` = absent. -/
abbrev Storage := Option StoredValue

/-- Source line 2: `const EXPIRATION_MS = 48 * 60 * 60 * 1000;` -/
def EXPIRATION_MS : Int := 48 * 60 * 60 * 1000

/-- JS truthiness of the `tournamentId` argument: null/undefined (`none`)
and the number 0 are falsy. -/
def tidTruthy : Option Int → Bool
  | none => false
  | some n => n != 0

/-- Source lines 9-24.  `t1`, `t2` are the two successive `Date.now()`
readings (lines 14, 15); `writeOk = false` models `setItem` throwing,
which the source catches and swallows (lines 19-23). -/
def saveDraftToStorage (tournamentId : Option Int)
    (selections : List (Option Golfer)) (t1 t2 : Int) (writeOk : Bool)
    (st : Storage) : Storage :=
  if !(tidTruthy tournamentId) then st
  else
    let draftData : DraftData :=
      { tournamentId := tournamentId.getD 0
        savedAt := t1
        expiresAt := t2 + EXPIRATION_MS
        selections := selections }
    if writeOk then some (.record draftData) else st

/-- Source lines 80-86: `localStorage.removeItem(STORAGE_KEY)` inside
try/catch; removal is modelled as succeeding. -/
def clearDraftStorage (_ : Storage) : Storage := none

/-- Model of `JSON.parse` on the stored string: yields the record, or
throws. -/
def parseStored : StoredValue → Except Unit DraftData
  | .record d => .ok d
  | .corrupted _ => .error ()

/-- Source lines 54-60: the arrow function mapped over the stored
selections.  A falsy slot → null; an id outside the `Set` of available
ids (line 53) → null; otherwise
`availableGolfers.find(g => g.id === selection.id) || null`. -/
def validateSlot (availableGolfers : List Golfer) :
    Option Golfer → Option Golfer
  | none => none
  | some s =>
    if !((availableGolfers.map Golfer.id).contains s.id) then none
    else
      match availableGolfers.find? (fun g => g.id == s.id) with
      | some g => some g
      | none => none

/-- Source lines 53-60: `draftData.selections.map(selection => ...)`. -/
def validateSelections (availableGolfers : List Golfer)
    (sels : List (Option Golfer)) : List (Option Golfer) :=
  sels.map (validateSlot availableGolfers)

/-- Source lines 34-69: the body of the `try` block of
`loadDraftFromStorage`; `Except.error` marks the points where JS would
throw (here: `JSON.parse` on corrupted input). -/
def loadDraftFromStorageCore (tournamentId : Int)
    (availableGolfers : List Golfer) (now : Int) (st : Storage) :
    Except Unit (Option (List (Option Golfer)) × Storage) :=
  match st with
  | none => .ok (none, st)
  | some stored =>
    match parseStored stored with
    | .error e => .error e
    | .ok draftData =>
      if draftData.tournamentId != tournamentId then
        .ok (none, clearDraftStorage st)
      else if now > draftData.expiresAt then
        .ok (none, clearDraftStorage st)
      else
        let validatedSelections :=
          validateSelections availableGolfers draftData.selections
        if !(validatedSelections.any (fun s => s.isSome)) then
          .ok (none, clearDraftStorage st)
        else
          .ok (some validatedSelections, st)

/-- Source lines 33-75: `loadDraftFromStorage` with its `catch` clause
(lines 70-74: clear storage, return null; never rethrows). -/
def loadDraftFromStorage (tournamentId : Int)
    (availableGolfers : List Golfer) (now : Int) (st : Storage) :
    Option (List (Option Golfer)) × Storage :=
  match loadDraftFromStorageCore tournamentId availableGolfers now st with
  | .ok r => r
  | .error _ => (none, clearDraftStorage st)

/-- Source lines 93-103.  The result is paired with the (unchanged)
storage state to make the absence of mutation a statable fact. -/
def hasSavedDraft (tournamentId : Int) (now : Int) (st : Storage) :
    Bool × Storage :=
  match st with
  | none => (false, st)
  | some (.corrupted _) => (false, st)
  | some (.record draftData) =>
    (draftData.tournamentId == tournamentId && now <= draftData.expiresAt, st)

/-! ## Helper lemmas about slot validation -/

/-- The membership pre-check against the id `Set` and the subsequent
`find` agree: a slot survives validation exactly as described by `find?`
on the available-golfers list (first golfer with a matching id), with
empty slots passed through. -/
theorem validateSlot_eq_find (g : List Golfer) (s : Option Golfer) :
    validateSlot g s =
      s.bind (fun golfer => g.find? (fun x => x.id == golfer.id)) := by
  cases s with
  | none => rfl
  | some golfer =>
    simp only [validateSlot, Option.bind]
    cases hf : g.find? (fun x => x.id == golfer.id) with
    | none => simp
    | some y =>
      have hy : (y.id == golfer.id) = true := by
        have h := List.find?_some hf
        simpa using h
      have hmem : y ∈ g := List.mem_of_find?_eq_some hf
      have hc : (g.map Golfer.id).contains golfer.id = true := by
        have : golfer.id ∈ g.map Golfer.id := by
          refine List.mem_map.mpr ⟨y, hmem, ?_⟩
          exact beq_iff_eq.mp hy
        exact List.elem_eq_true_of_mem this
      simp [hc]
      exact ⟨y, hmem, beq_iff_eq.mp hy⟩

theorem validateSelections_eq_find (g : List Golfer)
    (sels : List (Option Golfer)) :
    validateSelections g sels =
      sels.map
        (fun s => s.bind (fun golfer => g.find? (fun x => x.id == golfer.id))) := by
  unfold validateSelections
  congr 1
  funext s
  exact validateSlot_eq_find g s

/-- A slot holding a golfer whose id matches some available golfer
survives validation, refreshed to the first matching available golfer. -/
theorem validateSlot_some_of_mem (g : List Golfer) (golfer x : Golfer)
    (hx : x ∈ g) (hid : x.id = golfer.id) :
    ∃ gr, validateSlot g (some golfer) = some gr ∧
      gr.id = golfer.id ∧ gr ∈ g := by
  rw [validateSlot_eq_find]
  have hsome : (g.find? (fun y => y.id == golfer.id)).isSome :=
    List.find?_isSome.mpr ⟨x, hx, by simp [hid]⟩
  obtain ⟨gr, hgr⟩ := Option.isSome_iff_exists.mp hsome
  refine ⟨gr, by simp [hgr], ?_, List.mem_of_find?_eq_some hgr⟩
  have := List.find?_some hgr
  exact beq_iff_eq.mp this

/-- If some stored slot still matches an available golfer, the
validated list contains a non-empty slot. -/
theorem validateSelections_any_of_slot (g : List Golfer)
    (S : List (Option Golfer))
    (h : ∃ golfer, some golfer ∈ S ∧ ∃ x ∈ g, x.id = golfer.id) :
    (validateSelections g S).any (fun s => s.isSome) = true := by
  obtain ⟨golfer, hgS, x, hx, hid⟩ := h
  obtain ⟨gr, hgr, -, -⟩ := validateSlot_some_of_mem g golfer x hx hid
  refine List.any_eq_true.mpr
    ⟨validateSlot g (some golfer), List.mem_map_of_mem _ hgS, ?_⟩
  simp [hgr]

/-! ## Claim theorems -/

/-- C3: for every stored record whose `tournamentId` differs from the
one passed to `loadDraftFromStorage`, load removes the record from
storage and returns null, regardless of the record's selections content
or expiry status. -/
theorem claim_C3_tournament_mismatch (tid now : Int) (g : List Golfer)
    (d : DraftData) (hne : d.tournamentId ≠ tid) :
    loadDraftFromStorage tid g now (some (.record d)) = (none, none) := by
  simp [loadDraftFromStorage, loadDraftFromStorageCore, parseStored,
    clearDraftStorage, hne]

theorem claim_C3_witness :
    (1 : Int) ≠ 2 ∧
      loadDraftFromStorage 2 [] 0 (some (.record ⟨1, 0, 10, []⟩)) =
        (none, none) :=
  ⟨by decide, claim_C3_tournament_mismatch 2 0 [] ⟨1, 0, 10, []⟩ (by decide)⟩

/-- C5: a stored value that cannot be parsed makes
`loadDraftFromStorageCore` raise the exception that `JSON.parse` throws
(first conjunct), and `loadDraftFromStorage` catches it, removes the
stored record and returns null (second conjunct); `loadDraftFromStorage`
itself is a total function into plain pairs, so it never propagates an
exception to its caller for any input or storage state. -/
theorem claim_C5_corrupted_never_throws (tid now : Int) (g : List Golfer)
    (raw : String) :
    loadDraftFromStorageCore tid g now (some (.corrupted raw)) = .error () ∧
      loadDraftFromStorage tid g now (some (.corrupted raw)) = (none, none) :=
  ⟨rfl, rfl⟩

/-- C6: `hasSavedDraft` never mutates storage (first conjunct), and it
returns true exactly when a record is present, its tournament id equals
the given one, and the current time is ≤ its `expiresAt`; in every other
case — absent key, corrupted (unparseable) value, mismatched tournament,
or expired record — it returns false rather than throwing. -/
theorem claim_C6_has_saved_draft (tid now : Int) (st : Storage) :
    (hasSavedDraft tid now st).snd = st ∧
      ((hasSavedDraft tid now st).fst = true ↔
        ∃ d, st = some (.record d) ∧ d.tournamentId = tid ∧
          now ≤ d.expiresAt) := by
  refine ⟨?_, ?_⟩
  · cases st with
    | none => rfl
    | some sv => cases sv <;> rfl
  · cases st with
    | none => simp [hasSavedDraft]
    | some sv =>
      cases sv with
      | record d => simp [hasSavedDraft]
      | corrupted raw => simp [hasSavedDraft]

/-- C7: saving with a missing tournament id (null or undefined, both
embedded as `none`) leaves storage entirely unchanged — the write
primitive is never reached — and raises no error, for every selections
array, clock reading, write outcome and prior storage state. -/
theorem claim_C7_save_noop_missing_id (S : List (Option Golfer))
    (t1 t2 : Int) (w : Bool) (st : Storage) :
    saveDraftToStorage none S t1 t2 w st = st :=
  rfl

/-- C10: `loadDraftFromStorage` never writes a modified record back:
after any call the stored value is exactly what it was before the call,
or absent; and whenever load returns a non-null selections array (in
particular after a partial invalidation that nulled some slots of the
returned array), the stored record is left untouched, still holding the
original selections. -/
theorem claim_C10_load_no_writeback (tid now : Int) (g : List Golfer)
    (st : Storage) :
    (loadDraftFromStorage tid g now st).snd = st ∨
      ((loadDraftFromStorage tid g now st).fst = none ∧
        (loadDraftFromStorage tid g now st).snd = none) := by
  cases st with
  | none => left; rfl
  | some sv =>
    cases sv with
    | corrupted raw => right; exact ⟨rfl, rfl⟩
    | record d =>
      simp only [loadDraftFromStorage, loadDraftFromStorageCore, parseStored,
        clearDraftStorage]
      by_cases h1 : d.tournamentId != tid
      · right; simp [h1]
      · by_cases h2 : now > d.expiresAt
        · right; simp [h1, h2]
        · by_cases h3 :
            (validateSelections g d.selections).any (fun s => s.isSome)
          · left; simp [h1, h2, h3]
          · right; simp [h1, h2, h3]

/-- C2: for every stored record passing the tournament and expiry
checks, load maps each slot to the first available golfer with the same
id (refreshed object) and to the empty marker when no available golfer
has that id; it destroys the stored record and returns null exactly when
all resulting slots are empty, and keeps the record (returning the
validated array) as soon as one slot survives. -/
theorem claim_C2_slot_invalidation (tid now : Int) (g : List Golfer)
    (d : DraftData) (htid : d.tournamentId = tid)
    (hexp : now ≤ d.expiresAt) :
    loadDraftFromStorage tid g now (some (.record d)) =
      (let v := d.selections.map
          (fun s => s.bind (fun golfer => g.find? (fun x => x.id == golfer.id)))
       if v.any (fun s => s.isSome) then (some v, some (.record d))
       else (none, none)) := by
  have hv := validateSelections_eq_find g d.selections
  simp only [loadDraftFromStorage, loadDraftFromStorageCore, parseStored,
    clearDraftStorage, htid, hv]
  have h2 : ¬ now > d.expiresAt := not_lt.mpr hexp
  by_cases h3 :
      (d.selections.map
        (fun s => s.bind (fun golfer => g.find? (fun x => x.id == golfer.id)))).any
        (fun s => s.isSome)
  · simp [h2, h3]
  · simp [h2, h3]

theorem claim_C2_witness :
    (3 : Int) = 3 ∧ (0 : Int) ≤ 100 ∧
      loadDraftFromStorage 3 [⟨1, "a"⟩] 0
          (some (.record ⟨3, 0, 100,
            [some ⟨1, "stale"⟩, some ⟨2, "b"⟩, none]⟩)) =
        (some [some ⟨1, "a"⟩, none, none],
          some (.record ⟨3, 0, 100, [some ⟨1, "stale"⟩, some ⟨2, "b"⟩, none]⟩)) :=
  ⟨rfl, by decide,
    (claim_C2_slot_invalidation 3 0 [⟨1, "a"⟩]
      ⟨3, 0, 100, [some ⟨1, "stale"⟩, some ⟨2, "b"⟩, none]⟩ rfl
      (by decide)).trans (by decide)⟩

/-- C4: a record with `expiresAt = now - 1` makes load return null and
remove the stored record (for any tournament id on the record — whether
the expiry check or the earlier mismatch check fires, the outcome is the
same), while a record with `expiresAt = now + 1` whose tournament id
matches and which still holds at least one available golfer makes load
return a non-null result: expiry is strict comparison `now > expiresAt`. -/
theorem claim_C4_expiry_boundary (tid now : Int) (g : List Golfer)
    (d1 d2 : DraftData) (h1 : d1.expiresAt = now - 1)
    (h2t : d2.tournamentId = tid) (h2e : d2.expiresAt = now + 1)
    (h2v : ∃ golfer, some golfer ∈ d2.selections ∧
      ∃ x ∈ g, x.id = golfer.id) :
    loadDraftFromStorage tid g now (some (.record d1)) = (none, none) ∧
      ∃ v, (loadDraftFromStorage tid g now (some (.record d2))).fst =
        some v := by
  constructor
  · by_cases ht : d1.tournamentId = tid
    · have hgt : now > d1.expiresAt := by rw [h1]; omega
      simp [loadDraftFromStorage, loadDraftFromStorageCore, parseStored,
        clearDraftStorage, ht, hgt]
    · simp [loadDraftFromStorage, loadDraftFromStorageCore, parseStored,
        clearDraftStorage, ht]
  · have hgt : ¬ now > d2.expiresAt := by rw [h2e]; omega
    have hany := validateSelections_any_of_slot g d2.selections h2v
    refine ⟨validateSelections g d2.selections, ?_⟩
    simp [loadDraftFromStorage, loadDraftFromStorageCore, parseStored,
      clearDraftStorage, h2t, hgt, hany]

theorem claim_C4_witness :
    ((-1 : Int) = 0 - 1) ∧ ((1 : Int) = 1) ∧ ((1 : Int) = 0 + 1) ∧
      (∃ golfer, some golfer ∈ [some (⟨1, "a"⟩ : Golfer)] ∧
        ∃ x ∈ [(⟨1, "a"⟩ : Golfer)], x.id = golfer.id) ∧
      loadDraftFromStorage 1 [⟨1, "a"⟩] 0 (some (.record ⟨1, 0, -1, []⟩)) =
        (none, none) ∧
      ∃ v, (loadDraftFromStorage 1 [⟨1, "a"⟩] 0
          (some (.record ⟨1, 0, 1, [some ⟨1, "a"⟩]⟩))).fst = some v := by
  have h := claim_C4_expiry_boundary 1 0 [⟨1, "a"⟩] ⟨1, 0, -1, []⟩
    ⟨1, 0, 1, [some ⟨1, "a"⟩]⟩ (by decide) rfl (by decide)
    ⟨⟨1, "a"⟩, by simp, ⟨1, "a"⟩, by simp, rfl⟩
  exact ⟨by decide, rfl, by decide,
    ⟨⟨1, "a"⟩, by simp, ⟨1, "a"⟩, by simp, rfl⟩, h.1, h.2⟩

/-- C8 is refuted as stated: `saveDraftToStorage` stores the selections
array verbatim, so the repository's own test input `save(123, [])`
produces a stored record whose selections field has 0 slots, not 8. -/
theorem claim_C8_counterexample :
    saveDraftToStorage (some 123) [] 0 0 true none =
      some (.record ⟨123, 0, 172800000, []⟩) ∧
      ([] : List (Option Golfer)).length ≠ 8 :=
  ⟨rfl, by decide⟩

/-- C8 amended: `saveDraftToStorage` stores the caller's selections
array verbatim (empty slots kept as explicit `none` markers, never
omitted, positions preserved); consequently every record written from an
8-slot input has exactly 8 slots, but the function itself does not
enforce the length — the 8-slot invariant holds only for 8-slot inputs. -/
theorem claim_C8_save_preserves_slots (T : Int) (hT : T ≠ 0)
    (S : List (Option Golfer)) (hS : S.length = 8) (t1 t2 : Int)
    (st : Storage) :
    ∃ d, saveDraftToStorage (some T) S t1 t2 true st = some (.record d) ∧
      d.selections = S ∧ d.selections.length = 8 := by
  have ht : tidTruthy (some T) = true := by simp [tidTruthy, hT]
  refine ⟨⟨T, t1, t2 + EXPIRATION_MS, S⟩, ?_, rfl, hS⟩
  simp [saveDraftToStorage, ht]

theorem claim_C8_witness :
    (9 : Int) ≠ 0 ∧ (List.replicate 8 (none : Option Golfer)).length = 8 ∧
      ∃ d, saveDraftToStorage (some 9) (List.replicate 8 none) 0 0 true none =
        some (.record d) ∧ d.selections = List.replicate 8 none ∧
        d.selections.length = 8 :=
  ⟨by decide, by decide,
    claim_C8_save_preserves_slots 9 (by decide) (List.replicate 8 none)
      (by decide) 0 0 none⟩

/-- C9 is refuted as stated: the source reads `Date.now()` twice (once
for `savedAt`, once for `expiresAt`), so when the millisecond clock
advances between the two reads — here from 0 to 1 — the stored record
has `expiresAt = 172800001 ≠ savedAt + 172800000 = 172800000`. -/
theorem claim_C9_counterexample :
    saveDraftToStorage (some 1) [] 0 1 true none =
      some (.record ⟨1, 0, 172800001, []⟩) ∧
      (172800001 : Int) ≠ 0 + 172800000 :=
  ⟨rfl, by decide⟩

/-- C9 amended: every record written by `saveDraftToStorage` has
`savedAt` equal to the first clock reading and
`expiresAt = (second clock reading) + 172800000` (the fixed 48-hour
TTL); since the clock is monotone, `savedAt + 172800000 ≤ expiresAt`,
with equality exactly when the clock does not advance between the two
reads inside the write. -/
theorem claim_C9_ttl (T t1 t2 : Int) (hT : T ≠ 0) (h12 : t1 ≤ t2)
    (S : List (Option Golfer)) (st : Storage) :
    ∃ d, saveDraftToStorage (some T) S t1 t2 true st = some (.record d) ∧
      d.savedAt = t1 ∧ d.expiresAt = t2 + 172800000 ∧
      d.savedAt + 172800000 ≤ d.expiresAt ∧
      (t1 = t2 → d.expiresAt = d.savedAt + 172800000) := by
  have ht : tidTruthy (some T) = true := by simp [tidTruthy, hT]
  have hE : EXPIRATION_MS = 172800000 := by norm_num [EXPIRATION_MS]
  refine ⟨⟨T, t1, t2 + EXPIRATION_MS, S⟩, ?_, rfl, by rw [hE], ?_, ?_⟩
  · simp [saveDraftToStorage, ht]
  · simp only [hE]; omega
  · intro h; simp only [hE, h]

theorem claim_C9_witness :
    (1 : Int) ≠ 0 ∧ (5 : Int) ≤ 5 ∧
      ∃ d, saveDraftToStorage (some 1) [] 5 5 true none =
        some (.record d) ∧ d.savedAt = 5 ∧ d.expiresAt = 5 + 172800000 ∧
        d.savedAt + 172800000 ≤ d.expiresAt ∧
        ((5 : Int) = 5 → d.expiresAt = d.savedAt + 172800000) :=
  ⟨by decide, by decide, claim_C9_ttl 1 5 5 (by decide) (by decide) [] none⟩

/-- C1 is refuted as stated: the round-trip fails on two admissible
inputs of the claim.  First, an 8-slot selection array consisting
entirely of empty slots (vacuously, every golfer of it is available):
load then finds no valid selection, destroys the freshly saved record
and returns null instead of the array.  Second, a null tournament id:
save is a silent no-op, so the subsequent load returns null. -/
theorem claim_C1_counterexample :
    (loadDraftFromStorage 5 [⟨1, "a"⟩] 0
        (saveDraftToStorage (some 5) (List.replicate 8 none) 0 0 true
          none)).fst = none ∧
      (loadDraftFromStorage 5 [⟨1, "a"⟩] 0
        (saveDraftToStorage none (List.replicate 8 (some ⟨1, "a"⟩)) 0 0 true
          none)).fst = none := by
  constructor <;> rfl

/-- C1 amended: for a truthy tournament id T and an 8-slot selection
array S holding at least one golfer, with every golfer of S a member of
`availableGolfers`, save followed immediately by load returns an 8-slot
array equal to S element-wise by golfer id: empty slots stay empty, and
each non-empty slot holds a golfer object from `availableGolfers`
bearing the same id.  When S is all-empty the record is destroyed and
load returns null (first counterexample), and when T is missing nothing
is saved (second counterexample). -/
theorem claim_C1_roundtrip (T t : Int) (hT : T ≠ 0)
    (S : List (Option Golfer)) (g : List Golfer) (st : Storage)
    (hlen : S.length = 8)
    (hmem : ∀ golfer : Golfer, some golfer ∈ S → golfer ∈ g)
    (hsome : ∃ x ∈ S, x ≠ none) :
    ∃ V, (loadDraftFromStorage T g t
        (saveDraftToStorage (some T) S t t true st)).fst = some V ∧
      V.length = 8 ∧
      (∀ i : Nat, S[i]? = some none → V[i]? = some none) ∧
      (∀ (i : Nat) (golfer : Golfer), S[i]? = some (some golfer) →
        ∃ gr, V[i]? = some (some gr) ∧ gr.id = golfer.id ∧ gr ∈ g) := by
  have ht : tidTruthy (some T) = true := by simp [tidTruthy, hT]
  have hsave : saveDraftToStorage (some T) S t t true st =
      some (.record ⟨T, t, t + EXPIRATION_MS, S⟩) := by
    simp [saveDraftToStorage, ht]
  have hexp : ¬ t > t + EXPIRATION_MS := by
    have : (0 : Int) ≤ EXPIRATION_MS := by norm_num [EXPIRATION_MS]
    omega
  have hany : (validateSelections g S).any (fun s => s.isSome) = true := by
    apply validateSelections_any_of_slot
    obtain ⟨x, hxS, hx⟩ := hsome
    obtain ⟨golfer, rfl⟩ := Option.ne_none_iff_exists'.mp hx
    exact ⟨golfer, hxS, golfer, hmem golfer hxS, rfl⟩
  have hmap : ∀ i : Nat,
      (validateSelections g S)[i]? = (S[i]?).map (validateSlot g) := by
    intro i
    simp [validateSelections]
  refine ⟨validateSelections g S, ?_, ?_, ?_, ?_⟩
  · rw [hsave]
    simp [loadDraftFromStorage, loadDraftFromStorageCore, parseStored,
      hexp, hany]
  · simp [validateSelections, hlen]
  · intro i hi
    rw [hmap i, hi]
    rfl
  · intro i golfer hi
    have hmm : some golfer ∈ S := List.getElem?_mem hi
    obtain ⟨gr, hgr, hid, hgmem⟩ :=
      validateSlot_some_of_mem g golfer golfer (hmem golfer hmm) rfl
    refine ⟨gr, ?_, hid, hgmem⟩
    rw [hmap i, hi]
    simp [hgr]

theorem claim_C1_witness :
    (7 : Int) ≠ 0 ∧
      ([some ⟨1, "a"⟩, none, none, none, none, none, none, none] :
        List (Option Golfer)).length = 8 ∧
      (∀ golfer : Golfer,
        some golfer ∈ ([some ⟨1, "a"⟩, none, none, none, none, none, none,
          none] : List (Option Golfer)) →
        golfer ∈ [(⟨1, "a"⟩ : Golfer)]) ∧
      (∃ x ∈ ([some ⟨1, "a"⟩, none, none, none, none, none, none, none] :
        List (Option Golfer)), x ≠ none) ∧
      ∃ V, (loadDraftFromStorage 7 [⟨1, "a"⟩] 0
          (saveDraftToStorage (some 7)
            [some ⟨1, "a"⟩, none, none, none, none, none, none, none]
            0 0 true none)).fst = some V ∧
        V.length = 8 ∧
        (∀ i : Nat,
          ([some ⟨1, "a"⟩, none, none, none, none, none, none, none] :
            List (Option Golfer))[i]? = some none → V[i]? = some none) ∧
        (∀ (i : Nat) (golfer : Golfer),
          ([some ⟨1, "a"⟩, none, none, none, none, none, none, none] :
            List (Option Golfer))[i]? = some (some golfer) →
          ∃ gr, V[i]? = some (some gr) ∧ gr.id = golfer.id ∧
            gr ∈ [(⟨1, "a"⟩ : Golfer)]) := by
  refine ⟨by decide, by decide, ?_, ⟨some ⟨1, "a"⟩, by simp, by simp⟩, ?_⟩
  · intro golfer h
    simp at h
    simp [h]
  · exact claim_C1_roundtrip 7 0 (by decide)
      [some ⟨1, "a"⟩, none, none, none, none, none, none, none]
      [⟨1, "a"⟩] none (by decide)
      (by intro golfer h; simp at h; simp [h])
      ⟨some ⟨1, "a"⟩, by simp, by simp⟩
